import Mathlib

/-!
# Verification of `src/lock_file/resolve.rs`

Shallow embedding of the resolution and lock-assembly core of the pixi
lock-file module: `resolve_pypi` (joining resolved PyPI candidates with
cached metadata and assembling locked records) and `resolve_conda`
(offloading the conda solve and translating the worker's join result).

External collaborators (the `pypi::resolve_dependencies` resolver, the
`PackageDb` metadata cache, the `resolvo` solver, the tokio join
machinery) are modelled as explicit function parameters or outcome
values, so that the orchestration logic of `resolve.rs` itself is the
object of the theorems.
-/

namespace PixiResolve

/-! ## Data model for the PyPI path -/

/-- The subset of an artifact's declared content hashes inspected by
`resolve_pypi`: the optional sha256 digest (mirrors
`rip::ArtifactHashes`, whose `sha256` field is the one read here).
Digests are modelled as natural numbers. -/
structure ArtifactHashes where
  sha256 : Option Nat
  deriving DecidableEq, Repr

/-- The chosen artifact reference returned by the metadata cache:
its URL and its optionally declared hashes. -/
structure Artifact where
  url : String
  hashes : Option ArtifactHashes
  deriving DecidableEq, Repr

/-- Declared dependency and interpreter-compatibility metadata for a
resolved candidate's chosen artifact. -/
structure ArtifactMetadata where
  requires_dist : List String
  requires_python : Option String
  deriving DecidableEq, Repr

/-- An activated optional feature set ("extra") of a candidate; the code
stringifies it via `e.as_str().to_string()`, modelled by the `str`
field. -/
structure Extra where
  str : String
  deriving DecidableEq, Repr

/-- A resolved source-ecosystem candidate (`rip`'s pinned package) as
consumed by the joiner loop of `resolve_pypi`: name, version, the
activated extras in their stable order, and the artifact references
used as the metadata-cache key. -/
structure PinnedPackage where
  name : String
  version : String
  extras : List Extra
  artifacts : List String
  deriving DecidableEq, Repr

/-- Package content hashes as stored in a locked record
(`rattler_lock::PackageHashes`): md5 only, sha256 only, or both. -/
inductive PackageHashes where
  | md5 : Nat → PackageHashes
  | sha256 : Nat → PackageHashes
  | md5Sha256 : Nat → Nat → PackageHashes
  deriving DecidableEq, Repr

/-- `rattler_lock::PackageHashes::from_hashes`: combines the optional
md5 and sha256 digests, returning `none` when neither is present.
`resolve_pypi` always calls it with `md5 = none`. -/
def PackageHashes.from_hashes (md5 : Option Nat) (sha256 : Option Nat) :
    Option PackageHashes :=
  match md5, sha256 with
  | some m, some s => some (.md5Sha256 m s)
  | some m, none => some (.md5 m)
  | none, some s => some (.sha256 s)
  | none, none => none

/-- The canonical locked record for one source-ecosystem package
(`rattler_lock::PypiPackageData`). -/
structure PypiPackageData where
  name : String
  version : String
  requires_dist : List String
  requires_python : Option String
  url : String
  hash : Option PackageHashes
  deriving DecidableEq, Repr

/-- Per-package record of which extras are active in the resolved
environment (`rattler_lock::PypiPackageEnvironmentData`). -/
structure PypiPackageEnvironmentData where
  extras : List String
  deriving DecidableEq, Repr

/-- The metadata-cache lookup used by the joiner: the
`package_db.get_metadata(&artifacts, None)` operation, keyed on a
candidate's artifact references. It can fail (`Except.error`), report a
cache miss (`Except.ok none`), or return the chosen artifact together
with its metadata. -/
def PackageDb : Type :=
  List String → Except String (Option (Artifact × ArtifactMetadata))

/-- Outcome of a fallible pipeline that can also abort with a fatal,
non-recoverable fault: `ok` is a normal result, `err` a recoverable
`miette` diagnostic, `panic` an `expect`-style fatal fault carrying its
message. -/
inductive Outcome (ε π α : Type) where
  | ok : α → Outcome ε π α
  | err : ε → Outcome ε π α
  | panic : π → Outcome ε π α
  deriving DecidableEq, Repr

/-! ## The lock-record assembler -/

/-- Assembles the `PypiPackageData` for one `(candidate, artifact,
metadata)` triple, exactly as the struct literal in `resolve_pypi`:
name and version from the candidate, requires list and interpreter
range from the metadata, URL from the artifact, and a hash obtained by
`artifact.hashes.as_ref().and_then(|hash|
PackageHashes::from_hashes(None, hash.sha256))`. -/
def mkPkgData (python_artifact : PinnedPackage) (artifact : Artifact)
    (metadata : ArtifactMetadata) : PypiPackageData :=
  { name := python_artifact.name
    version := python_artifact.version
    requires_dist := metadata.requires_dist
    requires_python := metadata.requires_python
    url := artifact.url
    hash := artifact.hashes.bind
      fun hash => PackageHashes.from_hashes none hash.sha256 }

/-- Assembles the `PypiPackageEnvironmentData` for one candidate: its
activated extras, stringified in order
(`python_artifact.extras.into_iter().map(|e| e.as_str().to_string())`). -/
def mkPkgEnv (python_artifact : PinnedPackage) : PypiPackageEnvironmentData :=
  { extras := python_artifact.extras.map Extra.str }

/-- Message of the first `expect` in the joiner loop. -/
def msgGetMetadataFailed : String :=
  "failed to get metadata for a package for which we have already fetched metadata during solving."

/-- Message of the second `expect` in the joiner loop. -/
def msgNoMetadata : String :=
  "no metadata for a package for which we have already fetched metadata during solving."

/-- One iteration of the joiner loop of `resolve_pypi`: look the
candidate's artifacts up in the metadata cache; a failed lookup
(`Err`) or a cache miss (`Ok(None)`) hits one of the two `expect`
calls and is a fatal fault; otherwise the locked record and the
environment data are assembled. -/
def joinCandidate (package_db : PackageDb) (python_artifact : PinnedPackage) :
    Outcome String String (PypiPackageData × PypiPackageEnvironmentData) :=
  match package_db python_artifact.artifacts with
  | .error _ => .panic msgGetMetadataFailed
  | .ok none => .panic msgNoMetadata
  | .ok (some (artifact, metadata)) =>
      .ok (mkPkgData python_artifact artifact metadata, mkPkgEnv python_artifact)

/-- The joiner loop of `resolve_pypi`: processes the resolved candidates
in order, pushing one `(PypiPackageData, PypiPackageEnvironmentData)`
pair per candidate onto `locked_packages`; a fatal fault in any
iteration aborts the loop. -/
def lockPypiPackages (package_db : PackageDb)
    (python_artifacts : List PinnedPackage) :
    Outcome String String (List (PypiPackageData × PypiPackageEnvironmentData)) :=
  match python_artifacts with
  | [] => .ok []
  | python_artifact :: rest =>
      match joinCandidate package_db python_artifact with
      | .panic m => .panic m
      | .err m => .err m
      | .ok pair =>
          match lockPypiPackages package_db rest with
          | .ok pairs => .ok (pair :: pairs)
          | .err m => .err m
          | .panic m => .panic m

/-- Decides whether the metadata-cache lookup for a candidate fails or
returns no metadata — the condition under which the joiner faults. -/
def metadataLookupFailed (package_db : PackageDb)
    (python_artifact : PinnedPackage) : Bool :=
  match package_db python_artifact.artifacts with
  | .error _ => true
  | .ok none => true
  | .ok (some _) => false

/-! ## `resolve_pypi`

The Rust function first awaits `pypi::resolve_dependencies` (an
external collaborator, modelled by the `resolve_dependencies`
parameter), propagating its error with `?`, and then runs the joiner
loop. The progress-bar messages are pure I/O with no effect on the
result and are not modelled. The pass-through inputs
(`dependencies`, `system_requirements`, `locked_conda_records`,
`_locked_pypi_records`, `platform`, `python_location`,
`sdist_resolution`, `env_variables`) are never inspected by
`resolve.rs` itself, so their types are parameters. -/

/-- `resolve_pypi`: forwards its inputs to the external dependency
resolver, then joins each resolved candidate with its cached metadata
and assembles the locked packages. Note that `locked_pypi_records`
(the `_locked_pypi_records` argument) is accepted but never used. -/
def resolve_pypi {Deps SysReq CondaRec PypiRec Plat Loc SDist EnvVars : Type}
    (package_db : PackageDb)
    (resolve_dependencies :
      PackageDb → Deps → SysReq → Plat → List CondaRec → Option Loc →
        SDist → EnvVars → Except String (List PinnedPackage))
    (dependencies : Deps)
    (system_requirements : SysReq)
    (locked_conda_records : List CondaRec)
    (_locked_pypi_records : List PypiRec)
    (platform : Plat)
    (python_location : Option Loc)
    (sdist_resolution : SDist)
    (env_variables : EnvVars) :
    Outcome String String (List (PypiPackageData × PypiPackageEnvironmentData)) :=
  match resolve_dependencies package_db dependencies system_requirements
      platform locked_conda_records python_location sdist_resolution
      env_variables with
  | .error e => .err e
  | .ok python_artifacts => lockPypiPackages package_db python_artifacts

/-! ## The conda path

`resolve_conda` offloads the CPU-bound solve onto a blocking worker
(`tokio::task::spawn_blocking`), awaits the join handle, and translates
the join result: a completed worker's result is returned as is, a
worker that panicked has its panic payload re-raised unchanged
(`std::panic::resume_unwind`), and a join error without a panic payload
(a cancelled/detached worker) becomes the diagnostic
`miette::miette!("cancelled")`. The solver (`resolvo::Solver.solve`
composed with `into_diagnostic`) is an external collaborator, modelled
by the `solver` parameter; the fate of the worker (completion, panic,
detachment) is external scheduling behaviour, modelled by the `fate`
parameter. Spec, virtual-package and repodata-record types are never
inspected by `resolve.rs`, so they are type parameters. -/

/-- The aggregate input handed to the solver
(`rattler_solve::SolverTask`), parametric in the spec, virtual-package
and record types. -/
structure SolverTask (Spec VPkg Rec : Type) where
  specs : List Spec
  available_packages : List (List Rec)
  locked_packages : List Rec
  pinned_packages : List Rec
  virtual_packages : List VPkg
  timeout : Option Nat
  deriving DecidableEq, Repr

/-- The `SolverTask` literal constructed inside `resolve_conda`: it
forwards the four function inputs and fixes `pinned_packages = vec![]`
and `timeout = None`. -/
def conda_task {Spec VPkg Rec : Type}
    (specs : List Spec) (virtual_packages : List VPkg)
    (locked_packages : List Rec) (available_packages : List (List Rec)) :
    SolverTask Spec VPkg Rec :=
  { specs := specs
    available_packages := available_packages
    locked_packages := locked_packages
    pinned_packages := []
    virtual_packages := virtual_packages
    timeout := none }

/-- The fate of the offloaded worker, as observed through the join
handle: it completes and its closure's result is available, it
terminates abnormally with a panic payload (of type `π`), or it is
cancelled/detached with no diagnosable cause. -/
inductive WorkerFate (π : Type) where
  | completes
  | panics : π → WorkerFate π
  | detached
  deriving DecidableEq, Repr

/-- Awaiting a `spawn_blocking` join handle: a completed worker yields
its closure's value, an abnormally terminated worker yields a join
error whose `try_into_panic` recovers the payload, and a detached
worker yields a join error with no payload. -/
inductive JoinResult (π α : Type) where
  | ok : α → JoinResult π α
  | panicked : π → JoinResult π α
  | cancelled : JoinResult π α
  deriving DecidableEq, Repr

/-- `tokio::task::spawn_blocking(work).await`, with the worker's fate
made explicit: only a completed worker runs `work` to a value. -/
def spawn_blocking_join {π α : Type} (fate : WorkerFate π)
    (work : Unit → α) : JoinResult π α :=
  match fate with
  | .completes => .ok (work ())
  | .panics p => .panicked p
  | .detached => .cancelled

/-- `resolve_conda`: builds the solver task from its four inputs, runs
the solve on an offloaded worker, and translates the join result —
`Ok(result)` is returned unchanged, a recovered panic payload is
re-raised (`resume_unwind`, modelled as the `panic` outcome), and a
join error without payload becomes the recoverable `"cancelled"`
diagnostic. -/
def resolve_conda {Spec VPkg Rec π : Type}
    (fate : WorkerFate π)
    (solver : SolverTask Spec VPkg Rec → Except String (List Rec))
    (specs : List Spec)
    (virtual_packages : List VPkg)
    (locked_packages : List Rec)
    (available_packages : List (List Rec)) :
    Outcome String π (List Rec) :=
  match spawn_blocking_join fate
      (fun _ => solver
        (conda_task specs virtual_packages locked_packages available_packages)) with
  | .ok (.ok records) => .ok records
  | .ok (.error e) => .err e
  | .panicked p => .panic p
  | .cancelled => .err "cancelled"

/-! ## Concrete instances used to exercise the theorems -/

/-- A metadata cache that misses on every key (`Ok(None)`). -/
def exDbMiss : PackageDb := fun _ => .ok none

/-- A sample artifact with a declared sha256 digest. -/
def exArtifact : Artifact :=
  { url := "https://example.invalid/pkg_a-1.0-py3-none-any.whl"
    hashes := some { sha256 := some 17 } }

/-- Sample metadata for `exArtifact`. -/
def exMetadata : ArtifactMetadata :=
  { requires_dist := ["dep_b >=2"], requires_python := some ">=3.8" }

/-- A metadata cache that answers every key with
`(exArtifact, exMetadata)`. -/
def exDbHit : PackageDb := fun _ => .ok (some (exArtifact, exMetadata))

/-- A sample resolved candidate with one activated extra. -/
def exCandidate : PinnedPackage :=
  { name := "pkg_a"
    version := "1.0"
    extras := [{ str := "cli" }]
    artifacts := ["pkg_a-1.0-py3-none-any.whl"] }

/-- A dependency resolver returning a fixed candidate list regardless of
its inputs, with every pass-through input type instantiated at `Nat`. -/
def exResolveDeps (cands : List PinnedPackage) :
    PackageDb → Nat → Nat → Nat → List Nat → Option Nat → Nat → Nat →
      Except String (List PinnedPackage) :=
  fun _ _ _ _ _ _ _ _ => .ok cands

/-- A sample solver that locks exactly the already-locked packages. -/
def exSolver : SolverTask Nat Nat Nat → Except String (List Nat) :=
  fun task => .ok task.locked_packages

/-! ## Helper lemmas about the joiner loop -/

/-- A failed or empty metadata lookup makes `joinCandidate` hit one of
the two `expect` calls. -/
theorem joinCandidate_panic_of_failed (package_db : PackageDb)
    (pa : PinnedPackage) (h : metadataLookupFailed package_db pa = true) :
    ∃ msg, joinCandidate package_db pa = .panic msg := by
  unfold metadataLookupFailed at h
  cases hdb : package_db pa.artifacts with
  | error e => exact ⟨msgGetMetadataFailed, by simp [joinCandidate, hdb]⟩
  | ok o =>
    cases o with
    | none => exact ⟨msgNoMetadata, by simp [joinCandidate, hdb]⟩
    | some v =>
      rw [hdb] at h
      simp at h

/-- `joinCandidate` never produces a recoverable error: its outcomes are
a fatal fault or an assembled pair. -/
theorem joinCandidate_ne_err (package_db : PackageDb) (pa : PinnedPackage)
    (m : String) : joinCandidate package_db pa ≠ .err m := by
  unfold joinCandidate
  cases package_db pa.artifacts with
  | error e => simp
  | ok o =>
    cases o with
    | none => simp
    | some v =>
      obtain ⟨artifact, metadata⟩ := v
      simp

/-- If any candidate in the list has a failed or empty metadata lookup,
the joiner loop aborts with a fatal fault. -/
theorem lockPypiPackages_panic_of_mem (package_db : PackageDb)
    (cands : List PinnedPackage) (pa : PinnedPackage)
    (hmem : pa ∈ cands) (hfail : metadataLookupFailed package_db pa = true) :
    ∃ msg, lockPypiPackages package_db cands = .panic msg := by
  induction cands with
  | nil => cases hmem
  | cons head tail ih =>
    rcases List.mem_cons.mp hmem with rfl | htail
    · obtain ⟨msg, hj⟩ := joinCandidate_panic_of_failed package_db pa hfail
      exact ⟨msg, by simp [lockPypiPackages, hj]⟩
    · obtain ⟨msg, hrec⟩ := ih htail
      cases hj : joinCandidate package_db head with
      | panic m => exact ⟨m, by simp [lockPypiPackages, hj]⟩
      | err m => exact absurd hj (joinCandidate_ne_err package_db head m)
      | ok pair => exact ⟨msg, by simp [lockPypiPackages, hj, hrec]⟩

/-- If every candidate's metadata lookup succeeds, the joiner loop
returns one assembled pair per candidate, in order, with the package
names copied from the candidates. -/
theorem lockPypiPackages_ok_of_all (package_db : PackageDb)
    (cands : List PinnedPackage)
    (hok : ∀ pa ∈ cands, metadataLookupFailed package_db pa = false) :
    ∃ pairs, lockPypiPackages package_db cands = .ok pairs ∧
      pairs.map (fun p => p.1.name) = cands.map PinnedPackage.name := by
  induction cands with
  | nil => exact ⟨[], rfl, rfl⟩
  | cons head tail ih =>
    have hhead := hok head (List.mem_cons_self head tail)
    have htail : ∀ pa ∈ tail, metadataLookupFailed package_db pa = false :=
      fun pa hpa => hok pa (List.mem_cons_of_mem head hpa)
    obtain ⟨pairs, hrec, hnames⟩ := ih htail
    unfold metadataLookupFailed at hhead
    cases hdb : package_db head.artifacts with
    | error e =>
      rw [hdb] at hhead
      simp at hhead
    | ok o =>
      cases o with
      | none =>
        rw [hdb] at hhead
        simp at hhead
      | some v =>
        obtain ⟨artifact, metadata⟩ := v
        refine ⟨(mkPkgData head artifact metadata, mkPkgEnv head) :: pairs, ?_, ?_⟩
        · simp [lockPypiPackages, joinCandidate, hdb, hrec]
        · simp [hnames, mkPkgData]

/-! ## Claim theorems -/

/-- C1: for every resolved candidate processed by `resolve_pypi`, if the
metadata-cache lookup (`get_metadata` with no wheel builder) fails or
returns no metadata, `resolve_pypi` aborts with a fatal,
non-recoverable fault — one of the two `expect` panics — and the
outcome is neither a normal result (no silent skip) nor a recoverable
error. -/
theorem resolve_pypi_missing_metadata_panics
    {Deps SysReq CondaRec PypiRec Plat Loc SDist EnvVars : Type}
    (package_db : PackageDb)
    (resolve_dependencies :
      PackageDb → Deps → SysReq → Plat → List CondaRec → Option Loc →
        SDist → EnvVars → Except String (List PinnedPackage))
    (dependencies : Deps) (system_requirements : SysReq)
    (locked_conda_records : List CondaRec) (locked_pypi_records : List PypiRec)
    (platform : Plat) (python_location : Option Loc)
    (sdist_resolution : SDist) (env_variables : EnvVars)
    (python_artifacts : List PinnedPackage) (pa : PinnedPackage)
    (hres : resolve_dependencies package_db dependencies system_requirements
      platform locked_conda_records python_location sdist_resolution
      env_variables = .ok python_artifacts)
    (hmem : pa ∈ python_artifacts)
    (hfail : metadataLookupFailed package_db pa = true) :
    ∃ msg, resolve_pypi package_db resolve_dependencies dependencies
      system_requirements locked_conda_records locked_pypi_records platform
      python_location sdist_resolution env_variables = Outcome.panic msg := by
  obtain ⟨msg, hlock⟩ :=
    lockPypiPackages_panic_of_mem package_db python_artifacts pa hmem hfail
  exact ⟨msg, by simp [resolve_pypi, hres, hlock]⟩

/-- Witness for `resolve_pypi_missing_metadata_panics`: a single
candidate whose cache lookup returns no metadata makes `resolve_pypi`
fault. -/
theorem resolve_pypi_missing_metadata_panics_witness :
    ∃ msg, resolve_pypi exDbMiss (exResolveDeps [exCandidate]) 0 0 []
      ([] : List Nat) 0 none 0 0 = Outcome.panic msg :=
  resolve_pypi_missing_metadata_panics exDbMiss (exResolveDeps [exCandidate])
    0 0 [] [] 0 none 0 0 [exCandidate] exCandidate rfl (by simp) rfl

/-- C2: if the offloaded solver worker of `resolve_conda` terminates
abnormally with a panic payload, that payload is re-raised to the
caller unchanged (`resume_unwind`); if the worker join fails without a
payload (detachment), `resolve_conda` returns the generic `"cancelled"`
error; and for every possible worker fate the caller receives some
outcome — it is never left suspended. -/
theorem resolve_conda_worker_termination {Spec VPkg Rec π : Type}
    (solver : SolverTask Spec VPkg Rec → Except String (List Rec))
    (specs : List Spec) (virtual_packages : List VPkg)
    (locked_packages : List Rec) (available_packages : List (List Rec))
    (p : π) :
    resolve_conda (WorkerFate.panics p) solver specs virtual_packages
      locked_packages available_packages = Outcome.panic p ∧
    resolve_conda (WorkerFate.detached : WorkerFate π) solver specs
      virtual_packages locked_packages available_packages =
      Outcome.err "cancelled" ∧
    ∀ fate : WorkerFate π,
      (∃ records, resolve_conda fate solver specs virtual_packages
        locked_packages available_packages = Outcome.ok records) ∨
      (∃ e, resolve_conda fate solver specs virtual_packages
        locked_packages available_packages = Outcome.err e) ∨
      (∃ q, resolve_conda fate solver specs virtual_packages
        locked_packages available_packages = Outcome.panic q) := by
  refine ⟨rfl, rfl, ?_⟩
  intro fate
  cases fate with
  | completes =>
    cases hsolve : solver (conda_task specs virtual_packages locked_packages
        available_packages) with
    | ok r =>
      exact .inl ⟨r, by simp [resolve_conda, spawn_blocking_join, hsolve]⟩
    | error e =>
      exact .inr (.inl ⟨e, by simp [resolve_conda, spawn_blocking_join, hsolve]⟩)
  | panics q => exact .inr (.inr ⟨q, rfl⟩)
  | detached => exact .inr (.inl ⟨"cancelled", rfl⟩)

/-- C3: the locked record assembled for a `(candidate, metadata)` pair
has a populated hash exactly when the chosen artifact declares hashes
containing a sha256 digest; absent hashes or hashes without a sha256
digest yield `hash = none`, never a failure (the assembler is total). -/
theorem mkPkgData_hash_fidelity (python_artifact : PinnedPackage)
    (artifact : Artifact) (metadata : ArtifactMetadata) :
    (mkPkgData python_artifact artifact metadata).hash.isSome = true ↔
      ∃ hs, artifact.hashes = some hs ∧ hs.sha256.isSome = true := by
  obtain ⟨url, hashes⟩ := artifact
  cases hashes with
  | none => simp [mkPkgData]
  | some hs =>
    obtain ⟨sha⟩ := hs
    cases sha with
    | none => simp [mkPkgData, PackageHashes.from_hashes]
    | some d => simp [mkPkgData, PackageHashes.from_hashes]

/-- C6: the locked record assembled for a `(candidate, metadata)` pair
copies name and version from the candidate, requires list and
interpreter-compatibility range from the metadata, and the URL from the
chosen artifact reference. -/
theorem mkPkgData_field_mapping (python_artifact : PinnedPackage)
    (artifact : Artifact) (metadata : ArtifactMetadata) :
    (mkPkgData python_artifact artifact metadata).name =
      python_artifact.name ∧
    (mkPkgData python_artifact artifact metadata).version =
      python_artifact.version ∧
    (mkPkgData python_artifact artifact metadata).requires_dist =
      metadata.requires_dist ∧
    (mkPkgData python_artifact artifact metadata).requires_python =
      metadata.requires_python ∧
    (mkPkgData python_artifact artifact metadata).url = artifact.url :=
  ⟨rfl, rfl, rfl, rfl, rfl⟩

/-- C7: for every candidate the joiner assembles successfully, the
produced environment data lists exactly the stringified activated
extras of the candidate, in the candidate's order — every activated
extra appears and nothing else does. -/
theorem joinCandidate_extras_roundtrip (package_db : PackageDb)
    (python_artifact : PinnedPackage) (pkg_data : PypiPackageData)
    (pkg_env : PypiPackageEnvironmentData)
    (h : joinCandidate package_db python_artifact = .ok (pkg_data, pkg_env)) :
    pkg_env.extras = python_artifact.extras.map Extra.str ∧
    ∀ s, s ∈ pkg_env.extras ↔ ∃ e ∈ python_artifact.extras, e.str = s := by
  have henv : pkg_env = mkPkgEnv python_artifact := by
    revert h
    unfold joinCandidate
    cases package_db python_artifact.artifacts with
    | error e => intro h; cases h
    | ok o =>
      cases o with
      | none => intro h; cases h
      | some v =>
        obtain ⟨artifact, metadata⟩ := v
        intro h
        injection h with h2
        exact (congrArg Prod.snd h2).symm
  subst henv
  refine ⟨rfl, ?_⟩
  intro s
  simp [mkPkgEnv]

/-- Witness for `joinCandidate_extras_roundtrip` at a concrete candidate
with one activated extra. -/
theorem joinCandidate_extras_roundtrip_witness :
    (mkPkgEnv exCandidate).extras = exCandidate.extras.map Extra.str ∧
    ∀ s, s ∈ (mkPkgEnv exCandidate).extras ↔
      ∃ e ∈ exCandidate.extras, e.str = s :=
  joinCandidate_extras_roundtrip exDbHit exCandidate
    (mkPkgData exCandidate exArtifact exMetadata) (mkPkgEnv exCandidate) rfl

/-- C8: when the dependency resolver succeeds and every candidate's
metadata lookup succeeds, `resolve_pypi` returns exactly one pair per
candidate, in candidate order (the names map across), so pairwise
distinct candidate names give an output without duplicate names. -/
theorem resolve_pypi_one_pair_per_candidate
    {Deps SysReq CondaRec PypiRec Plat Loc SDist EnvVars : Type}
    (package_db : PackageDb)
    (resolve_dependencies :
      PackageDb → Deps → SysReq → Plat → List CondaRec → Option Loc →
        SDist → EnvVars → Except String (List PinnedPackage))
    (dependencies : Deps) (system_requirements : SysReq)
    (locked_conda_records : List CondaRec) (locked_pypi_records : List PypiRec)
    (platform : Plat) (python_location : Option Loc)
    (sdist_resolution : SDist) (env_variables : EnvVars)
    (python_artifacts : List PinnedPackage)
    (hres : resolve_dependencies package_db dependencies system_requirements
      platform locked_conda_records python_location sdist_resolution
      env_variables = .ok python_artifacts)
    (hok : ∀ pa ∈ python_artifacts,
      metadataLookupFailed package_db pa = false) :
    ∃ pairs, resolve_pypi package_db resolve_dependencies dependencies
        system_requirements locked_conda_records locked_pypi_records platform
        python_location sdist_resolution env_variables = Outcome.ok pairs ∧
      pairs.length = python_artifacts.length ∧
      pairs.map (fun p => p.1.name) =
        python_artifacts.map PinnedPackage.name ∧
      ((python_artifacts.map PinnedPackage.name).Nodup →
        (pairs.map (fun p => p.1.name)).Nodup) := by
  obtain ⟨pairs, hlock, hnames⟩ :=
    lockPypiPackages_ok_of_all package_db python_artifacts hok
  refine ⟨pairs, by simp [resolve_pypi, hres, hlock], ?_, hnames, ?_⟩
  · have hlen := congrArg List.length hnames
    simpa using hlen
  · intro hnd
    rw [hnames]
    exact hnd

/-- Witness for `resolve_pypi_one_pair_per_candidate` with one candidate
whose lookup succeeds. -/
theorem resolve_pypi_one_pair_per_candidate_witness :
    ∃ pairs, resolve_pypi exDbHit (exResolveDeps [exCandidate]) 0 0 []
        ([] : List Nat) 0 none 0 0 = Outcome.ok pairs ∧
      pairs.length = [exCandidate].length ∧
      pairs.map (fun p => p.1.name) = [exCandidate].map PinnedPackage.name ∧
      (([exCandidate].map PinnedPackage.name).Nodup →
        (pairs.map (fun p => p.1.name)).Nodup) :=
  resolve_pypi_one_pair_per_candidate exDbHit (exResolveDeps [exCandidate])
    0 0 [] [] 0 none 0 0 [exCandidate] rfl (by decide)

/-- C9: `resolve_conda` is deterministic — two invocations with equal
specs, virtual packages, locked packages and available-package pools
(and the same solver, a pure function, on a normally completing worker)
produce identical results in content and ordering. -/
theorem resolve_conda_deterministic {Spec VPkg Rec π : Type}
    (solver : SolverTask Spec VPkg Rec → Except String (List Rec))
    (specs1 specs2 : List Spec)
    (virtual_packages1 virtual_packages2 : List VPkg)
    (locked_packages1 locked_packages2 : List Rec)
    (available_packages1 available_packages2 : List (List Rec))
    (hs : specs1 = specs2) (hv : virtual_packages1 = virtual_packages2)
    (hl : locked_packages1 = locked_packages2)
    (ha : available_packages1 = available_packages2) :
    resolve_conda (WorkerFate.completes : WorkerFate π) solver specs1
      virtual_packages1 locked_packages1 available_packages1 =
    resolve_conda WorkerFate.completes solver specs2 virtual_packages2
      locked_packages2 available_packages2 := by
  subst hs
  subst hv
  subst hl
  subst ha
  rfl

/-- Witness for `resolve_conda_deterministic` at concrete equal inputs. -/
theorem resolve_conda_deterministic_witness :
    resolve_conda (WorkerFate.completes : WorkerFate Nat) exSolver [1] [2]
      [3] [[4]] =
    resolve_conda WorkerFate.completes exSolver [1] [2] [3] [[4]] :=
  resolve_conda_deterministic exSolver [1] [1] [2] [2] [3] [3] [[4]] [[4]]
    rfl rfl rfl rfl

/-- C4 counterexample: no invocation of `resolve_conda` can produce a
solver task containing the non-empty pinned set `[7]` — the task
literal fixes `pinned_packages = vec![]`, and `resolve_conda` takes no
pinned-set input at all. -/
theorem conda_task_no_pinned_counterexample :
    ¬ ∃ (specs : List Nat) (virtual_packages : List Nat)
        (locked_packages : List Nat) (available_packages : List (List Nat)),
      (conda_task specs virtual_packages locked_packages
        available_packages).pinned_packages = [7] := by
  rintro ⟨s, v, l, a, h⟩
  simp [conda_task] at h

/-- C4 amended: `resolve_conda` accepts no pinned-package input; the
solver task it constructs always has an empty pinned set. -/
theorem conda_task_pinned_packages_empty {Spec VPkg Rec : Type}
    (specs : List Spec) (virtual_packages : List VPkg)
    (locked_packages : List Rec) (available_packages : List (List Rec)) :
    (conda_task specs virtual_packages locked_packages
      available_packages).pinned_packages = [] := rfl

/-- C5 counterexample: no invocation of `resolve_conda` can produce a
solver task carrying a wall-clock timeout such as `some 5` — the task
literal fixes `timeout: None`, and `resolve_conda` takes no timeout
input at all. -/
theorem conda_task_no_timeout_counterexample :
    ¬ ∃ (specs : List Nat) (virtual_packages : List Nat)
        (locked_packages : List Nat) (available_packages : List (List Nat)),
      (conda_task specs virtual_packages locked_packages
        available_packages).timeout = some 5 := by
  rintro ⟨s, v, l, a, h⟩
  simp [conda_task] at h

/-- C5 amended: `resolve_conda` accepts no timeout input; the solver
task it constructs always has `timeout = none`, so the solve runs to
completion or failure with no time bound. -/
theorem conda_task_timeout_none {Spec VPkg Rec : Type}
    (specs : List Spec) (virtual_packages : List VPkg)
    (locked_packages : List Rec) (available_packages : List (List Rec)) :
    (conda_task specs virtual_packages locked_packages
      available_packages).timeout = none := rfl

/-- C10: the previously locked PyPI records passed to `resolve_pypi`
(the `_locked_pypi_records` argument) have no influence on its result:
two invocations differing only in that argument are equal. -/
theorem resolve_pypi_ignores_locked_pypi_records
    {Deps SysReq CondaRec PypiRec Plat Loc SDist EnvVars : Type}
    (package_db : PackageDb)
    (resolve_dependencies :
      PackageDb → Deps → SysReq → Plat → List CondaRec → Option Loc →
        SDist → EnvVars → Except String (List PinnedPackage))
    (dependencies : Deps) (system_requirements : SysReq)
    (locked_conda_records : List CondaRec)
    (locked_pypi_records1 locked_pypi_records2 : List PypiRec)
    (platform : Plat) (python_location : Option Loc)
    (sdist_resolution : SDist) (env_variables : EnvVars) :
    resolve_pypi package_db resolve_dependencies dependencies
      system_requirements locked_conda_records locked_pypi_records1 platform
      python_location sdist_resolution env_variables =
    resolve_pypi package_db resolve_dependencies dependencies
      system_requirements locked_conda_records locked_pypi_records2 platform
      python_location sdist_resolution env_variables := rfl

end PixiResolve
